import Mathlib

/-!
Verification of the Shiksha streaming backend (Django + LiveKit).

This file shallowly embeds the role-scoped media-token policy
(`streaming/tokens.py`), the token endpoint (`streaming/views.py`,
`streaming/serializers.py`) and the session-credential lifecycle
(refresh rotation and logout/blacklisting, built on the SimpleJWT
library as configured in `core/settings.py`), and proves the frozen
claims about them.

External collaborators (the LiveKit SDK signing step and the SimpleJWT
token machinery) are modelled as explicit functions and state, with the
semantics the source relies on: a refresh token is verified against the
blacklist, `blacklist()` inserts its jti, and `Token.for_user(obj)`
reads the attribute named by `USER_ID_FIELD` (`id`) from `obj`.
-/

namespace ShikshaBackend

/-- `streaming/models.py` — the custom user.  `role` is a `CharField`
whose values are drawn from the `UserRole` choices (`teacher` /
`student`); the database itself stores an arbitrary string. -/
structure User where
  id : Nat
  username : String
  email : String
  first_name : String
  last_name : String
  role : String
deriving DecidableEq, Repr

/-- Python `str.strip()`: drop leading and trailing whitespace. -/
def pyStrip (s : String) : String :=
  String.mk (((s.data.dropWhile Char.isWhitespace).reverse.dropWhile
    Char.isWhitespace).reverse)

/-- Django `AbstractUser.get_full_name`: first and last name joined by a
space, with surrounding whitespace stripped. -/
def User.get_full_name (u : User) : String :=
  pyStrip (u.first_name ++ " " ++ u.last_name)

/-- `User.is_teacher` property from `streaming/models.py`. -/
def User.is_teacher (u : User) : Bool :=
  u.role == "teacher"

/-- `User.is_student` property from `streaming/models.py`. -/
def User.is_student (u : User) : Bool :=
  u.role == "student"

/-- `User.has_role` from `streaming/models.py`. -/
def User.has_role (u : User) (role_name : String) : Bool :=
  u.role == role_name

/-- `streaming/models.py` — a room record, as seen through
`RoomSerializer` (`host_username` flattens the foreign key). -/
structure Room where
  id : Nat
  name : String
  display_name : String
  host_username : String
  is_active : Bool
  created_at : String
deriving DecidableEq, Repr

/-- The LiveKit-related settings from `core/settings.py`.  The three
string values come from `os.getenv` and are absent (`none`) or possibly
empty when the `.env` file does not provide them. -/
structure LiveKitConfig where
  LIVEKIT_URL : Option String
  LIVEKIT_API_KEY : Option String
  LIVEKIT_API_SECRET : Option String
  LIVEKIT_TOKEN_TTL_SECONDS : Nat
deriving DecidableEq, Repr

/-- Python truthiness test `not value` for an optional string setting:
true when the setting is `None` or the empty string. -/
def falsy : Option String → Bool
  | none => true
  | some s => s == ""

/-- The list built by `_validate_livekit_config` in
`streaming/tokens.py`: the names of the required LiveKit settings whose
value is falsy. -/
def livekit_missing (cfg : LiveKitConfig) : List String :=
  (if falsy cfg.LIVEKIT_URL then ["LIVEKIT_URL"] else []) ++
  (if falsy cfg.LIVEKIT_API_KEY then ["LIVEKIT_API_KEY"] else []) ++
  (if falsy cfg.LIVEKIT_API_SECRET then ["LIVEKIT_API_SECRET"] else [])

/-- Errors raised out of `generate_livekit_token`: the explicit
`EnvironmentError` for missing configuration, and any exception
propagated from the SDK signing step. -/
inductive GenError where
  | environmentError (msg : String)
  | signingError
deriving DecidableEq, Repr

/-- `_validate_livekit_config` from `streaming/tokens.py`: raises
`EnvironmentError` when any of the three LiveKit settings is missing. -/
def validate_livekit_config (cfg : LiveKitConfig) : Except GenError Unit :=
  if (livekit_missing cfg).isEmpty then Except.ok ()
  else Except.error (GenError.environmentError
    ("Missing required LiveKit environment variables: " ++
      String.intercalate ", " (livekit_missing cfg) ++ ". Check your .env file."))

/-- `api.VideoGrants` as constructed in `streaming/tokens.py`. -/
structure VideoGrants where
  room_join : Bool
  room : String
  can_publish : Bool
  can_publish_data : Bool
  can_subscribe : Bool
  can_publish_sources : List String
  room_admin : Bool
  room_record : Bool
deriving DecidableEq, Repr

/-- The grant object built in `generate_livekit_token`
(`streaming/tokens.py`), with `is_teacher = user.is_teacher` resolved
from the database record. -/
def video_grants (user : User) (room_name : String) : VideoGrants :=
  let is_teacher := user.is_teacher
  { room_join := true
    room := room_name
    can_publish := is_teacher
    can_publish_data := is_teacher
    can_subscribe := true
    can_publish_sources :=
      if is_teacher then ["camera", "microphone", "screen_share"] else []
    room_admin := is_teacher
    room_record := is_teacher }

/-- The request handed to the external signing SDK: the `AccessToken`
assembled in `generate_livekit_token` just before `to_jwt()` —
key/secret for signing, identity, display name, TTL and grants. -/
structure SignRequest where
  api_key : String
  api_secret : String
  identity : String
  name : String
  ttl_seconds : Nat
  grants : VideoGrants
deriving DecidableEq, Repr

/-- The `AccessToken` builder chain of `generate_livekit_token`
(`streaming/tokens.py`): identity is `str(user.id)`, the display name is
`user.get_full_name() or user.username`, the TTL comes from settings. -/
def build_sign_request (cfg : LiveKitConfig) (room_name : String) (user : User) :
    SignRequest :=
  { api_key := cfg.LIVEKIT_API_KEY.getD ""
    api_secret := cfg.LIVEKIT_API_SECRET.getD ""
    identity := toString user.id
    name := if user.get_full_name == "" then user.username else user.get_full_name
    ttl_seconds := cfg.LIVEKIT_TOKEN_TTL_SECONDS
    grants := video_grants user room_name }

/-- `generate_livekit_token` from `streaming/tokens.py`.  The external
SDK signing step (`to_jwt`) is the function argument `sign`; the second
component of the result records whether the signing step was reached
(`false` when `_validate_livekit_config` raised first). -/
def generate_livekit_token (cfg : LiveKitConfig)
    (sign : SignRequest → Except Unit String)
    (room_name : String) (user : User) :
    Except GenError (String × Bool) × Bool :=
  match validate_livekit_config cfg with
  | Except.error e => (Except.error e, false)
  | Except.ok _ =>
    let is_teacher := user.is_teacher
    match sign (build_sign_request cfg room_name user) with
    | Except.error _ => (Except.error GenError.signingError, true)
    | Except.ok jwt => (Except.ok (jwt, is_teacher), true)

/-- A JSON value placed in a response body.  `credential` marks the
opaque signed token strings produced by the signing layer (the LiveKit
JWT, and SimpleJWT access/refresh token strings): their raw bytes are
outputs of an external signer, not configuration data copied into the
body by the view code. -/
inductive Val where
  | s (v : String)
  | n (v : Nat)
  | b (v : Bool)
  | credential (v : String)
deriving DecidableEq, Repr

/-- An HTTP response: status code and JSON-object body. -/
structure Response where
  status : Nat
  body : List (String × Val)
deriving DecidableEq, Repr

/-- A character admitted by Django's slug validator `[-a-zA-Z0-9_]`
(code points given numerically). -/
def isSlugChar (c : Char) : Bool :=
  (97 ≤ c.toNat && c.toNat ≤ 122) ||
  (65 ≤ c.toNat && c.toNat ≤ 90) ||
  (48 ≤ c.toNat && c.toNat ≤ 57) ||
  c.toNat == 45 || c.toNat == 95

/-- DRF `SlugField(max_length=100)` field validation used by
`TokenRequestSerializer.room`. -/
def isSlug (v : String) : Bool :=
  !(v.data.isEmpty) && v.data.all isSlugChar && v.data.length ≤ 100

/-- The error message raised by `TokenRequestSerializer.validate_room`
(`streaming/serializers.py`); the source text quotes the room name. -/
def room_invalid_msg (v : String) : String :=
  "Room " ++ v ++ " does not exist or is not currently active."

/-- The DRF slug-format error message (quotes elided). -/
def slug_invalid_msg : String :=
  "Enter a valid slug consisting of letters, numbers, underscores or hyphens."

/-- The existence check performed by
`TokenRequestSerializer.validate_room`:
`Room.objects.filter(name=value, is_active=True).exists()`. -/
def room_exists_active (rooms : List Room) (v : String) : Bool :=
  rooms.any (fun r => r.name == v && r.is_active)

/-- `TokenRequestSerializer.validate_room` from
`streaming/serializers.py`. -/
def validate_room (rooms : List Room) (v : String) : Except String String :=
  if room_exists_active rooms v then Except.ok v
  else Except.error (room_invalid_msg v)

/-- `TokenRequestSerializer(data=request.data).is_valid()` for the body
`{"room": ...}`: field presence, slug-format validation, then
`validate_room`.  `Except.error` carries `serializer.errors`. -/
def tokenRequest_run (rooms : List Room) (body : Option String) :
    Except (List (String × Val)) String :=
  match body with
  | none => Except.error [("room", Val.s "This field is required.")]
  | some v =>
    if isSlug v then
      match validate_room rooms v with
      | Except.error m => Except.error [("room", Val.s m)]
      | Except.ok v => Except.ok v
    else Except.error [("room", Val.s slug_invalid_msg)]

/-- `get_livekit_token` from `streaming/views.py` (the view body, after
authentication and throttling).  The second component records whether
the external signing step was invoked. -/
def get_livekit_token (cfg : LiveKitConfig)
    (sign : SignRequest → Except Unit String)
    (rooms : List Room) (user : User) (body : Option String) :
    Response × Bool :=
  match tokenRequest_run rooms body with
  | Except.error errs => ({ status := 400, body := errs }, false)
  | Except.ok room_name =>
    match generate_livekit_token cfg sign room_name user with
    | (Except.error (GenError.environmentError _), inv) =>
        ({ status := 503,
           body := [("detail", Val.s "Streaming service is not configured. Contact an administrator.")] }, inv)
    | (Except.error GenError.signingError, inv) =>
        ({ status := 500,
           body := [("detail", Val.s "Could not generate streaming token. Please try again.")] }, inv)
    | (Except.ok (jwt, is_teacher), inv) =>
        ({ status := 200,
           body := [("livekit_url", Val.s (cfg.LIVEKIT_URL.getD "")),
                    ("token", Val.credential jwt),
                    ("room", Val.s room_name),
                    ("is_teacher", Val.b is_teacher)] }, inv)

/-- A (well-formed, correctly signed) SimpleJWT refresh token, reduced
to the claims the views consult: its `jti`, the `user_id` claim, and
whether its `exp` has passed. -/
structure RefreshTok where
  jti : Nat
  user_id : Nat
  expired : Bool
deriving DecidableEq, Repr

/-- A SimpleJWT access token, reduced likewise. -/
structure AccessTok where
  jti : Nat
  user_id : Nat
  expired : Bool
deriving DecidableEq, Repr

/-- The persistent token-blacklist state (the
`rest_framework_simplejwt.token_blacklist` tables), plus a counter
supplying fresh `jti` values. -/
structure BlSt where
  blacklist : List Nat
  next_jti : Nat
deriving DecidableEq, Repr

/-- SimpleJWT `RefreshToken(token_string)` verification with the
blacklist app installed: the constructor raises `TokenError` when the
token is expired or its `jti` is blacklisted. -/
def refresh_verify (st : BlSt) (t : RefreshTok) : Bool :=
  !t.expired && !(st.blacklist.contains t.jti)

/-- SimpleJWT `token.blacklist()`: records the token's `jti` in the
blacklist table (committed immediately under Django autocommit). -/
def token_blacklist_op (st : BlSt) (t : RefreshTok) : BlSt :=
  { st with blacklist := t.jti :: st.blacklist }

/-- An object passed to `RefreshToken.for_user`.  The view in
`streaming/views.py` passes `token.payload` — the raw claim dict —
where a user model instance is expected. -/
inductive PyObj where
  | user (u : User)
  | payloadDict (p : RefreshTok)
deriving Repr

/-- Python `getattr(obj, "id")` as performed by `Token.for_user`
(`USER_ID_FIELD = "id"` in `core/settings.py`): user instances have the
attribute; a plain dict does not, so the call raises `AttributeError`. -/
def getattr_id : PyObj → Except String Nat
  | PyObj.user u => Except.ok u.id
  | PyObj.payloadDict _ => Except.error "AttributeError: the payload dict has no id attribute"

/-- SimpleJWT `RefreshToken.for_user(obj)`: reads the user id via
`getattr` and mints a fresh refresh token bound to it. -/
def refreshToken_for_user (st : BlSt) (obj : PyObj) :
    Except String (BlSt × RefreshTok) :=
  match getattr_id obj with
  | Except.error e => Except.error e
  | Except.ok uid =>
      Except.ok ({ st with next_jti := st.next_jti + 1 },
                 { jti := st.next_jti, user_id := uid, expired := false })

/-- `SIMPLE_JWT["ROTATE_REFRESH_TOKENS"]` from `core/settings.py`. -/
def ROTATE_REFRESH_TOKENS : Bool := true

/-- `SIMPLE_JWT["BLACKLIST_AFTER_ROTATION"]` from `core/settings.py`. -/
def BLACKLIST_AFTER_ROTATION : Bool := true

/-- The opaque string `str(token.access_token)` derived from a refresh
token (an externally signed credential; encoding is immaterial). -/
def access_token_str (t : RefreshTok) : String :=
  "access." ++ toString t.user_id ++ "." ++ toString t.jti

/-- The opaque string form of a freshly minted refresh token. -/
def refresh_token_str (t : RefreshTok) : String :=
  "refresh." ++ toString t.user_id ++ "." ++ toString t.jti

/-- `refresh_token_view` from `streaming/views.py`.  The body either
lacks the `refresh` field (`none`) or carries a well-formed refresh
token.  Mirrors the try/except: token verification failure and the
`AttributeError` from `RefreshToken.for_user(token.payload)` both land
in the generic `except` returning 401; the `token.blacklist()` write
that precedes the exception persists. -/
def refresh_token_view (st : BlSt) (body : Option RefreshTok) :
    BlSt × Response :=
  match body with
  | none =>
      (st, { status := 400, body := [("detail", Val.s "Refresh token is required.")] })
  | some tok =>
    if refresh_verify st tok then
      let data := [("access", Val.credential (access_token_str tok))]
      if ROTATE_REFRESH_TOKENS then
        let st1 := token_blacklist_op st tok
        match refreshToken_for_user st1 (PyObj.payloadDict tok) with
        | Except.error _ =>
            (st1, { status := 401,
                    body := [("detail", Val.s "Invalid or expired refresh token.")] })
        | Except.ok (st2, new_refresh) =>
            (st2, { status := 200,
                    body := data ++ [("refresh", Val.credential (refresh_token_str new_refresh))] })
      else
        (st, { status := 200, body := data })
    else
      (st, { status := 401,
             body := [("detail", Val.s "Invalid or expired refresh token.")] })

/-- `logout_view` from `streaming/views.py`.  `caller` is the
authenticated `request.user` (used only for logging in the source);
note the view never compares it with the token's `user_id` claim. -/
def logout_view (st : BlSt) (caller : User) (body : Option RefreshTok) :
    BlSt × Response :=
  match body with
  | none =>
      (st, { status := 400,
             body := [("detail", Val.s "Refresh token is required to logout.")] })
  | some tok =>
    if refresh_verify st tok then
      (token_blacklist_op st tok,
       { status := 200, body := [("detail", Val.s "Successfully logged out.")] })
    else
      (st, { status := 400, body := [("detail", Val.s "Invalid refresh token.")] })

/-- `me_view` from `streaming/views.py` (`UserSerializer` fields). -/
def me_view (u : User) : Response :=
  { status := 200,
    body := [("id", Val.n u.id), ("username", Val.s u.username),
             ("email", Val.s u.email), ("role", Val.s u.role),
             ("is_teacher", Val.b u.is_teacher), ("is_student", Val.b u.is_student)] }

/-- `LoginView` with `CustomTokenObtainPairSerializer.validate`
(`streaming/serializers.py`): on success the pair plus the `role` and
`username` convenience fields; otherwise SimpleJWT's 401.  The signed
credential strings are opaque inputs here. -/
def login_view (u : User) (password_ok : Bool) (access refresh : String) :
    Response :=
  if password_ok then
    { status := 200,
      body := [("access", Val.credential access), ("refresh", Val.credential refresh),
               ("role", Val.s u.role), ("username", Val.s u.username)] }
  else
    { status := 401,
      body := [("detail", Val.s "No active account found with the given credentials")] }

/-- One room rendered by `RoomSerializer`. -/
def room_serialized (r : Room) : List (String × Val) :=
  [("id", Val.n r.id), ("name", Val.s r.name), ("display_name", Val.s r.display_name),
   ("host_username", Val.s r.host_username), ("is_active", Val.b r.is_active),
   ("created_at", Val.s r.created_at)]

/-- `GET /api/streaming/rooms/` (`RoomListCreateView.get_queryset`):
the active rooms, serialized.  The body is a JSON array of objects. -/
def room_list_view (rooms : List Room) : Nat × List (List (String × Val)) :=
  (200, (rooms.filter (fun r => r.is_active)).map room_serialized)

/-- `POST /api/streaming/rooms/` under `IsTeacherOrReadOnly`: teachers
get the created room back (201); others are rejected by the permission
class with DRF's standard 403 detail. -/
def room_create_view (caller : User) (created : Room) : Response :=
  if caller.is_teacher then
    { status := 201, body := room_serialized created }
  else
    { status := 403,
      body := [("detail", Val.s "You do not have permission to perform this action.")] }

/-- An operation against the session-credential store: the two views
that mutate the blacklist. -/
inductive AuthOp where
  | refreshOp (body : Option RefreshTok)
  | logoutOp (caller : User) (body : Option RefreshTok)

/-- Run one auth operation. -/
def authStep (st : BlSt) : AuthOp → BlSt × Response
  | AuthOp.refreshOp b => refresh_token_view st b
  | AuthOp.logoutOp u b => logout_view st u b

/-- Run a sequence of auth operations, keeping the final state. -/
def runOps (st : BlSt) : List AuthOp → BlSt
  | [] => st
  | op :: ops => runOps (authStep st op).1 ops

/-- A session credential presented to the backend later: either an
access token (verified by `JWTAuthentication`, which checks signature
and expiry but never the blacklist) or a refresh token (verified by
`RefreshToken(...)`, which also checks the blacklist). -/
inductive SessionTok where
  | access (a : AccessTok)
  | refresh (r : RefreshTok)
deriving DecidableEq, Repr

/-- Whether a presented session credential is accepted in state `st`. -/
def tokenAccepted (st : BlSt) : SessionTok → Bool
  | SessionTok.access a => !a.expired
  | SessionTok.refresh r => refresh_verify st r

/-! ## Concrete fixtures used by witnesses and counterexamples -/

/-- A fully populated LiveKit configuration. -/
def cfgOk : LiveKitConfig :=
  { LIVEKIT_URL := some "wss://demo.livekit.cloud",
    LIVEKIT_API_KEY := some "apikey123",
    LIVEKIT_API_SECRET := some "apisecret456",
    LIVEKIT_TOKEN_TTL_SECONDS := 3600 }

/-- A configuration with the URL missing. -/
def cfgNoUrl : LiveKitConfig :=
  { cfgOk with LIVEKIT_URL := none }

/-- A configuration with the API secret missing. -/
def cfgNoSecret : LiveKitConfig :=
  { cfgOk with LIVEKIT_API_SECRET := none }

/-- A signing function that always succeeds with a fixed credential. -/
def signOk : SignRequest → Except Unit String :=
  fun _ => Except.ok "signed.jwt"

/-- A concrete student. -/
def student1 : User :=
  { id := 1, username := "stu", email := "stu@example.org",
    first_name := "", last_name := "", role := "student" }

/-- A concrete teacher. -/
def teacher1 : User :=
  { id := 2, username := "tea", email := "tea@example.org",
    first_name := "", last_name := "", role := "teacher" }

/-- A concrete user with a role outside the two-role domain. -/
def oddRoleUser : User :=
  { id := 7, username := "odd", email := "odd@example.org",
    first_name := "", last_name := "", role := "admin" }

/-- A concrete active room. -/
def room1 : Room :=
  { id := 1, name := "math-101", display_name := "Math",
    host_username := "tea", is_active := true, created_at := "2024-01-01" }

/-! ## Theorems -/

/-- The subscribe-only grant shape (every non-teacher receives it). -/
def student_grant (room_name : String) : VideoGrants :=
  { room_join := true, room := room_name, can_publish := false,
    can_publish_data := false, can_subscribe := true,
    can_publish_sources := [], room_admin := false, room_record := false }

/-- The full teacher grant shape. -/
def teacher_grant (room_name : String) : VideoGrants :=
  { room_join := true, room := room_name, can_publish := true,
    can_publish_data := true, can_subscribe := true,
    can_publish_sources := ["camera", "microphone", "screen_share"],
    room_admin := true, room_record := true }

/-- C1: for every identity, the grant computed for the media token
matches the role rule table: a `student` gets
`can_publish = can_publish_data = room_admin = room_record = false`, an
empty publishable source set and `can_subscribe = true`; a `teacher`
gets all publish/admin/record flags true, the source set
{camera, microphone, screen_share} and `can_subscribe = true`. -/
theorem grant_matches_role_table (u : User) (room_name : String) :
    (u.role = "student" → video_grants u room_name = student_grant room_name) ∧
    (u.role = "teacher" → video_grants u room_name = teacher_grant room_name) := by
  constructor <;> intro h <;>
    simp [video_grants, User.is_teacher, h, student_grant, teacher_grant]

/-- Witness for C1 at concrete student and teacher records. -/
theorem grant_matches_role_table_witness :
    video_grants student1 "math-101" = student_grant "math-101" ∧
    video_grants teacher1 "math-101" = teacher_grant "math-101" :=
  ⟨(grant_matches_role_table student1 "math-101").1 rfl,
   (grant_matches_role_table teacher1 "math-101").2 rfl⟩

/-- C4 counterexample: with a role outside {teacher, student} (here
"admin") and valid configuration, `generate_livekit_token` does not
signal any error: it produces a signed token carrying the subscribe-only
grant, contradicting the claim that an unrecognized role yields an
`InvalidState` violation instead of a grant. -/
theorem unknown_role_produces_grant :
    (generate_livekit_token cfgOk signOk "math-101" oddRoleUser).1
      = Except.ok ("signed.jwt", false) ∧
    video_grants oddRoleUser "math-101" = student_grant "math-101" := by
  constructor <;> rfl

/-- C4 amended: the grant computation is total over all role strings;
any role other than `teacher` — including values outside the two-role
domain — is silently treated as non-teacher and receives the
subscribe-only student grant, with no error signalled. -/
theorem nonteacher_role_gets_student_grant (u : User) (room_name : String)
    (h : u.role ≠ "teacher") :
    video_grants u room_name = student_grant room_name := by
  simp [video_grants, User.is_teacher, h, student_grant]

/-- Witness for the amended C4 at a concrete unrecognized role. -/
theorem nonteacher_role_gets_student_grant_witness :
    oddRoleUser.role ≠ "teacher" ∧
    video_grants oddRoleUser "r1" = student_grant "r1" :=
  ⟨by decide,
   nonteacher_role_gets_student_grant oddRoleUser "r1" (by decide)⟩

/-- C7: the subject (identity) embedded in every signing request is the
string form of the user's durable numeric id — never the username or
email (whenever those differ textually from the id, the subject differs
from them). -/
theorem sign_request_subject_is_user_id (cfg : LiveKitConfig)
    (room_name : String) (u : User) :
    (build_sign_request cfg room_name u).identity = toString u.id ∧
    (u.username ≠ toString u.id →
      (build_sign_request cfg room_name u).identity ≠ u.username) ∧
    (u.email ≠ toString u.id →
      (build_sign_request cfg room_name u).identity ≠ u.email) := by
  refine ⟨rfl, ?_, ?_⟩ <;> intro h <;> simp [build_sign_request] <;>
    exact fun hc => h hc.symm

/-- Witness for C7 at a concrete configuration and user. -/
theorem sign_request_subject_is_user_id_witness :
    (build_sign_request cfgOk "math-101" teacher1).identity = "2" ∧
    (build_sign_request cfgOk "math-101" teacher1).identity ≠ "tea" := by
  have h := sign_request_subject_is_user_id cfgOk "math-101" teacher1
  exact ⟨h.1, h.2.1 (by decide)⟩

/-- C5: a token request whose room name does not match an existing
active room yields a 400 validation error and the external signing
service is never invoked. -/
theorem unknown_room_rejected_without_signing (cfg : LiveKitConfig)
    (sign : SignRequest → Except Unit String) (rooms : List Room)
    (user : User) (v : String)
    (h : room_exists_active rooms v = false) :
    (get_livekit_token cfg sign rooms user (some v)).1.status = 400 ∧
    (get_livekit_token cfg sign rooms user (some v)).2 = false := by
  unfold get_livekit_token tokenRequest_run
  cases hs : isSlug v <;> simp [hs, validate_room, h]

/-- Witness for C5: a request for an absent room against an empty room
directory. -/
theorem unknown_room_rejected_without_signing_witness :
    room_exists_active [] "math-101" = false ∧
    (get_livekit_token cfgOk signOk [] student1 (some "math-101")).1.status = 400 ∧
    (get_livekit_token cfgOk signOk [] student1 (some "math-101")).2 = false :=
  ⟨by decide,
   (unknown_room_rejected_without_signing cfgOk signOk [] student1 "math-101" (by decide)).1,
   (unknown_room_rejected_without_signing cfgOk signOk [] student1 "math-101" (by decide)).2⟩

/-- C6 counterexample: a request made while the signing-service
configuration is absent (LIVEKIT_URL unset) but whose room name fails
validation returns 400, not 503 — the serializer runs before the
configuration check, so the claim quantified over every request made
under missing configuration is false. -/
theorem missing_config_bad_room_returns_400 :
    livekit_missing cfgNoUrl ≠ [] ∧
    (get_livekit_token cfgNoUrl signOk [] student1 (some "math-101")).1.status = 400 ∧
    (get_livekit_token cfgNoUrl signOk [] student1 (some "math-101")).1.status ≠ 503 := by
  refine ⟨by decide, by decide, by decide⟩

/-- C6 amended: every request that passes body validation (the named
room exists and is active) made while any signing-service configuration
value is absent returns 503 service-unavailable without invoking the
signing step; 503 is distinct from the 400 validation error and from
the 500 signing-failure error. -/
theorem missing_config_returns_503 (cfg : LiveKitConfig)
    (sign : SignRequest → Except Unit String) (rooms : List Room)
    (user : User) (body : Option String) (v : String)
    (hv : tokenRequest_run rooms body = Except.ok v)
    (hm : (livekit_missing cfg).isEmpty = false) :
    (get_livekit_token cfg sign rooms user body).1.status = 503 ∧
    (get_livekit_token cfg sign rooms user body).2 = false ∧
    (get_livekit_token cfg sign rooms user body).1.status ≠ 400 ∧
    (get_livekit_token cfg sign rooms user body).1.status ≠ 500 := by
  unfold get_livekit_token generate_livekit_token validate_livekit_config
  rw [hv]
  simp [hm]

/-- Witness for the amended C6: an active room, LIVEKIT_API_SECRET
absent. -/
theorem missing_config_returns_503_witness :
    tokenRequest_run [room1] (some "math-101") = Except.ok "math-101" ∧
    (get_livekit_token cfgNoSecret signOk [room1] student1
      (some "math-101")).1.status = 503 :=
  ⟨rfl,
   (missing_config_returns_503 cfgNoSecret signOk [room1] student1
     (some "math-101") "math-101" rfl (by decide)).1⟩

/-- Helper: with the repository settings (`ROTATE_REFRESH_TOKENS =
True`), the refresh view can never answer 200: the rotation path always
dies on `RefreshToken.for_user(token.payload)`. -/
theorem refresh_view_status_ne_200 (st : BlSt) (body : Option RefreshTok) :
    (refresh_token_view st body).2.status ≠ 200 := by
  cases body with
  | none => simp [refresh_token_view]
  | some tok =>
    by_cases hv : refresh_verify st tok = true <;>
      simp [refresh_token_view, hv, ROTATE_REFRESH_TOKENS,
            refreshToken_for_user, getattr_id]

/-- Helper: a blacklisted jti makes the refresh view answer 401. -/
theorem refresh_view_of_blacklisted (st : BlSt) (tok : RefreshTok)
    (h : tok.jti ∈ st.blacklist) :
    (refresh_token_view st (some tok)).2.status = 401 ∧
    (refresh_token_view st (some tok)).2.body
      = [("detail", Val.s "Invalid or expired refresh token.")] := by
  have hv : refresh_verify st tok = false := by
    simp [refresh_verify, h]
  simp [refresh_token_view, hv]

/-- Helper: no auth operation ever removes a jti from the blacklist. -/
theorem blacklist_mono_step (st : BlSt) (op : AuthOp) (j : Nat)
    (h : j ∈ st.blacklist) : j ∈ (authStep st op).1.blacklist := by
  cases op with
  | refreshOp b =>
    cases b with
    | none => simpa [authStep, refresh_token_view] using h
    | some tok =>
      by_cases hv : refresh_verify st tok = true <;>
        simp [authStep, refresh_token_view, hv, ROTATE_REFRESH_TOKENS,
              refreshToken_for_user, getattr_id, token_blacklist_op] <;>
        simp [h]
  | logoutOp u b =>
    cases b with
    | none => simpa [authStep, logout_view] using h
    | some tok =>
      by_cases hv : refresh_verify st tok = true <;>
        simp [authStep, logout_view, hv, token_blacklist_op] <;>
        simp [h]

/-- Helper: blacklist membership is preserved by any later sequence of
auth operations. -/
theorem blacklist_mono_run (st : BlSt) (ops : List AuthOp) (j : Nat)
    (h : j ∈ st.blacklist) : j ∈ (runOps st ops).blacklist := by
  induction ops generalizing st with
  | nil => simpa [runOps] using h
  | cons op ops ih =>
    simpa [runOps] using ih (authStep st op).1 (blacklist_mono_step st op j h)

/-- C2: a refresh credential, once used for a successful rotation or
successfully revoked, is never again accepted: after any further
sequence of auth operations, refreshing with it fails with the 401
invalid-credential response. -/
theorem used_or_revoked_refresh_never_accepted (st : BlSt) (tok : RefreshTok)
    (op : AuthOp) (ops : List AuthOp)
    (huse : op = AuthOp.refreshOp (some tok) ∨
            ∃ u, op = AuthOp.logoutOp u (some tok))
    (hsucc : (authStep st op).2.status = 200) :
    (refresh_token_view (runOps (authStep st op).1 ops) (some tok)).2.status = 401 ∧
    (refresh_token_view (runOps (authStep st op).1 ops) (some tok)).2.body
      = [("detail", Val.s "Invalid or expired refresh token.")] := by
  have hmem : tok.jti ∈ (authStep st op).1.blacklist := by
    rcases huse with h | ⟨u, h⟩
    · subst h
      exact absurd hsucc (refresh_view_status_ne_200 st (some tok))
    · subst h
      by_cases hv : refresh_verify st tok = true
      · simp [authStep, logout_view, hv, token_blacklist_op]
      · simp [authStep, logout_view, hv] at hsucc
  exact refresh_view_of_blacklisted _ tok
    (blacklist_mono_run (authStep st op).1 ops tok.jti hmem)

/-- Witness for C2: revoke a fresh credential, then immediately try to
refresh with it. -/
theorem used_or_revoked_refresh_never_accepted_witness :
    (authStep { blacklist := [], next_jti := 0 }
      (AuthOp.logoutOp teacher1 (some { jti := 5, user_id := 2, expired := false }))).2.status
      = 200 ∧
    (refresh_token_view
      (runOps (authStep { blacklist := [], next_jti := 0 }
        (AuthOp.logoutOp teacher1 (some { jti := 5, user_id := 2, expired := false }))).1 [])
      (some { jti := 5, user_id := 2, expired := false })).2.status = 401 :=
  ⟨by decide,
   (used_or_revoked_refresh_never_accepted { blacklist := [], next_jti := 0 }
     { jti := 5, user_id := 2, expired := false }
     (AuthOp.logoutOp teacher1 (some { jti := 5, user_id := 2, expired := false }))
     []
     (Or.inr ⟨teacher1, rfl⟩) (by decide)).1⟩

/-- C3 (code bug): with the repository settings, a refresh with a
perfectly valid credential never issues a new pair.  The rotation path
calls `RefreshToken.for_user(token.payload)` — the raw payload dict,
which has no `id` attribute — so after `token.blacklist()` has already
committed, the view falls into its `except` and answers 401, consuming
the credential without returning anything. -/
theorem refresh_rotation_never_issues_pair :
    refresh_token_view { blacklist := [], next_jti := 10 }
      (some { jti := 1, user_id := 42, expired := false })
      = ({ blacklist := [1], next_jti := 10 },
         { status := 401,
           body := [("detail", Val.s "Invalid or expired refresh token.")] }) := by
  rfl

/-- C8: a successful revocation changes only the state of the revoked
refresh credential: its jti is pushed onto the blacklist, it is no
longer accepted, while every access credential and every refresh
credential with a different jti keeps exactly its previous acceptance
status (access credentials remain valid until their own expiry, since
their verification never consults the blacklist). -/
theorem revoke_only_affects_revoked_credential (st : BlSt) (caller : User)
    (tok : RefreshTok)
    (h : (logout_view st caller (some tok)).2.status = 200) :
    (logout_view st caller (some tok)).1.blacklist = tok.jti :: st.blacklist ∧
    tokenAccepted (logout_view st caller (some tok)).1 (SessionTok.refresh tok) = false ∧
    (∀ a : AccessTok,
      tokenAccepted (logout_view st caller (some tok)).1 (SessionTok.access a)
        = tokenAccepted st (SessionTok.access a)) ∧
    (∀ r : RefreshTok, r.jti ≠ tok.jti →
      tokenAccepted (logout_view st caller (some tok)).1 (SessionTok.refresh r)
        = tokenAccepted st (SessionTok.refresh r)) := by
  by_cases hv : refresh_verify st tok = true
  · have hst : logout_view st caller (some tok)
        = (token_blacklist_op st tok,
           { status := 200, body := [("detail", Val.s "Successfully logged out.")] }) := by
      simp [logout_view, hv]
    refine ⟨by rw [hst]; rfl, ?_, ?_, ?_⟩
    · rw [hst]
      simp [token_blacklist_op, tokenAccepted, refresh_verify]
    · intro a
      rw [hst]
      rfl
    · intro r hr
      rw [hst]
      simp [token_blacklist_op, tokenAccepted, refresh_verify, hr]
  · simp [logout_view, hv] at h

/-- Witness for C8 at concrete state and credentials. -/
theorem revoke_only_affects_revoked_credential_witness :
    (logout_view { blacklist := [3], next_jti := 0 } teacher1
      (some { jti := 5, user_id := 2, expired := false })).2.status = 200 ∧
    (logout_view { blacklist := [3], next_jti := 0 } teacher1
      (some { jti := 5, user_id := 2, expired := false })).1.blacklist = [5, 3] ∧
    tokenAccepted
      (logout_view { blacklist := [3], next_jti := 0 } teacher1
        (some { jti := 5, user_id := 2, expired := false })).1
      (SessionTok.access { jti := 5, user_id := 2, expired := false })
      = tokenAccepted { blacklist := [3], next_jti := 0 }
          (SessionTok.access { jti := 5, user_id := 2, expired := false }) ∧
    tokenAccepted
      (logout_view { blacklist := [3], next_jti := 0 } teacher1
        (some { jti := 5, user_id := 2, expired := false })).1
      (SessionTok.refresh { jti := 6, user_id := 2, expired := false })
      = tokenAccepted { blacklist := [3], next_jti := 0 }
          (SessionTok.refresh { jti := 6, user_id := 2, expired := false }) :=
  ⟨by decide,
   (revoke_only_affects_revoked_credential { blacklist := [3], next_jti := 0 }
     teacher1 { jti := 5, user_id := 2, expired := false } (by decide)).1,
   (revoke_only_affects_revoked_credential { blacklist := [3], next_jti := 0 }
     teacher1 { jti := 5, user_id := 2, expired := false } (by decide)).2.2.1
     { jti := 5, user_id := 2, expired := false },
   (revoke_only_affects_revoked_credential { blacklist := [3], next_jti := 0 }
     teacher1 { jti := 5, user_id := 2, expired := false } (by decide)).2.2.2
     { jti := 6, user_id := 2, expired := false } (by decide)⟩

/-- C10: the logout view blacklists any structurally valid,
non-blacklisted refresh credential from the body without checking that
it is bound to the authenticated caller — in particular a caller whose
id differs from the credential's `user_id` claim revokes it with 200. -/
theorem logout_revokes_other_users_credential (st : BlSt) (caller : User)
    (tok : RefreshTok)
    (hval : refresh_verify st tok = true)
    (hcross : tok.user_id ≠ caller.id) :
    (logout_view st caller (some tok)).2.status = 200 ∧
    tok.jti ∈ (logout_view st caller (some tok)).1.blacklist := by
  simp [logout_view, hval, token_blacklist_op]

/-- Witness for C10: teacher1 (id 2) revokes a credential bound to user
id 1. -/
theorem logout_revokes_other_users_credential_witness :
    refresh_verify { blacklist := [], next_jti := 0 }
      { jti := 9, user_id := 1, expired := false } = true ∧
    (1 : Nat) ≠ teacher1.id ∧
    (logout_view { blacklist := [], next_jti := 0 } teacher1
      (some { jti := 9, user_id := 1, expired := false })).2.status = 200 ∧
    (9 : Nat) ∈ (logout_view { blacklist := [], next_jti := 0 } teacher1
      (some { jti := 9, user_id := 1, expired := false })).1.blacklist :=
  ⟨by decide, by decide,
   (logout_revokes_other_users_credential { blacklist := [], next_jti := 0 }
     teacher1 { jti := 9, user_id := 1, expired := false } (by decide) (by decide)).1,
   (logout_revokes_other_users_credential { blacklist := [], next_jti := 0 }
     teacher1 { jti := 9, user_id := 1, expired := false } (by decide) (by decide)).2⟩

/-- The values of a response body. -/
def bodyVals (r : Response) : List Val :=
  r.body.map Prod.snd

/-- Helper: a valid token request echoes its own `room` field. -/
theorem tokenRequest_run_ok (rooms : List Room) (body : Option String)
    (v : String) (h : tokenRequest_run rooms body = Except.ok v) :
    body = some v := by
  cases body with
  | none => simp [tokenRequest_run] at h
  | some x =>
    by_cases hs : isSlug x = true
    · by_cases hr : room_exists_active rooms x = true
      · simp [tokenRequest_run, hs, validate_room, hr] at h
        simp [h]
      · simp [tokenRequest_run, hs, validate_room, hr] at h
    · simp [tokenRequest_run, hs] at h

/-- Helper: the possible error bodies of the token-request serializer. -/
theorem tokenRequest_run_error (rooms : List Room) (body : Option String)
    (e : List (String × Val)) (h : tokenRequest_run rooms body = Except.error e) :
    e = [("room", Val.s "This field is required.")] ∨
    e = [("room", Val.s slug_invalid_msg)] ∨
    (∃ x, body = some x ∧ e = [("room", Val.s (room_invalid_msg x))]) := by
  cases body with
  | none =>
    simp [tokenRequest_run] at h
    simp [h]
  | some x =>
    by_cases hs : isSlug x = true
    · by_cases hr : room_exists_active rooms x = true
      · simp [tokenRequest_run, hs, validate_room, hr] at h
      · simp [tokenRequest_run, hs, validate_room, hr] at h
        subst h
        exact Or.inr (Or.inr ⟨x, rfl, rfl⟩)
    · simp [tokenRequest_run, hs] at h
      subst h
      simp

/-- C9 counterexample: the successful media-token response contains the
configured signing-service endpoint URL verbatim, in its `livekit_url`
field — so the claim that the endpoint URL never appears in any
response body is false. -/
theorem token_response_contains_endpoint_url :
    cfgOk.LIVEKIT_URL = some "wss://demo.livekit.cloud" ∧
    ("livekit_url", Val.s "wss://demo.livekit.cloud")
      ∈ (get_livekit_token cfgOk signOk [room1] teacher1 (some "math-101")).1.body ∧
    (get_livekit_token cfgOk signOk [room1] teacher1 (some "math-101")).1.status = 200 := by
  refine ⟨rfl, by decide, by decide⟩

/-- C9 amended: every value any endpoint places in a response body is
one of — a fixed literal message, an opaque signed credential, a
boolean flag, profile data of the requesting user, room-record data,
the request's own room argument — or, solely in the successful
media-token response, the configured endpoint URL.  In particular the
API key, API secret and token TTL never flow into any response body. -/
theorem response_values_characterized :
    (∀ (st : BlSt) (b : Option RefreshTok) (v : Val),
      v ∈ bodyVals (refresh_token_view st b).2 →
      (∃ s, v = Val.credential s) ∨ v = Val.s "Refresh token is required." ∨
      v = Val.s "Invalid or expired refresh token.") ∧
    (∀ (st : BlSt) (u : User) (b : Option RefreshTok) (v : Val),
      v ∈ bodyVals (logout_view st u b).2 →
      v = Val.s "Refresh token is required to logout." ∨
      v = Val.s "Invalid refresh token." ∨ v = Val.s "Successfully logged out.") ∧
    (∀ (u : User) (v : Val),
      v ∈ bodyVals (me_view u) →
      v = Val.n u.id ∨ v = Val.s u.username ∨ v = Val.s u.email ∨
      v = Val.s u.role ∨ (∃ x, v = Val.b x)) ∧
    (∀ (u : User) (ok : Bool) (a r : String) (v : Val),
      v ∈ bodyVals (login_view u ok a r) →
      (∃ s, v = Val.credential s) ∨ v = Val.s u.role ∨ v = Val.s u.username ∨
      v = Val.s "No active account found with the given credentials") ∧
    (∀ (rooms : List Room) (o : List (String × Val)) (v : Val),
      o ∈ (room_list_view rooms).2 → v ∈ o.map Prod.snd →
      ∃ r, r ∈ rooms ∧
        (v = Val.n r.id ∨ v = Val.s r.name ∨ v = Val.s r.display_name ∨
         v = Val.s r.host_username ∨ (∃ x, v = Val.b x) ∨ v = Val.s r.created_at)) ∧
    (∀ (caller : User) (created : Room) (v : Val),
      v ∈ bodyVals (room_create_view caller created) →
      v = Val.s "You do not have permission to perform this action." ∨
      v = Val.n created.id ∨ v = Val.s created.name ∨
      v = Val.s created.display_name ∨ v = Val.s created.host_username ∨
      (∃ x, v = Val.b x) ∨ v = Val.s created.created_at) ∧
    (∀ (cfg : LiveKitConfig) (sign : SignRequest → Except Unit String)
       (rooms : List Room) (user : User) (b : Option String) (v : Val),
      v ∈ bodyVals (get_livekit_token cfg sign rooms user b).1 →
      v = Val.s "This field is required." ∨ v = Val.s slug_invalid_msg ∨
      (∃ x, b = some x ∧ (v = Val.s (room_invalid_msg x) ∨ v = Val.s x)) ∨
      v = Val.s "Streaming service is not configured. Contact an administrator." ∨
      v = Val.s "Could not generate streaming token. Please try again." ∨
      v = Val.s (cfg.LIVEKIT_URL.getD "") ∨
      (∃ s, v = Val.credential s) ∨ (∃ x, v = Val.b x)) := by
  refine ⟨?_, ?_, ?_, ?_, ?_, ?_, ?_⟩
  · intro st b v hv
    cases b with
    | none =>
      simp [refresh_token_view, bodyVals] at hv
      simp [hv]
    | some tok =>
      by_cases hver : refresh_verify st tok = true <;>
        simp [refresh_token_view, hver, ROTATE_REFRESH_TOKENS,
              refreshToken_for_user, getattr_id, bodyVals] at hv <;>
        simp [hv]
  · intro st u b v hv
    cases b with
    | none =>
      simp [logout_view, bodyVals] at hv
      simp [hv]
    | some tok =>
      by_cases hver : refresh_verify st tok = true <;>
        simp [logout_view, hver, bodyVals] at hv <;>
        simp [hv]
  · intro u v hv
    simp [me_view, bodyVals] at hv
    rcases hv with h | h | h | h | h | h <;> simp [h]
  · intro u ok a r v hv
    cases ok <;> simp [login_view, bodyVals] at hv
    · simp [hv]
    · rcases hv with h | h | h | h <;> simp [h]
  · intro rooms o v ho hv
    simp [room_list_view] at ho
    rcases ho with ⟨r, ⟨hrmem, hract⟩, hser⟩
    refine ⟨r, hrmem, ?_⟩
    subst hser
    simp [room_serialized] at hv
    rcases hv with h | h | h | h | h | h <;> simp [h]
  · intro caller created v hv
    by_cases ht : caller.is_teacher = true <;>
      simp [room_create_view, ht, room_serialized, bodyVals] at hv
    · rcases hv with h | h | h | h | h | h <;> simp [h]
    · simp [hv]
  · intro cfg sign rooms user b v hv
    rcases hrun : tokenRequest_run rooms b with e | rn
    · simp [get_livekit_token, hrun, bodyVals] at hv
      rcases tokenRequest_run_error rooms b e hrun with h | h | ⟨x, hb, h⟩ <;>
        subst h <;> simp at hv <;> simp [hv]
      exact Or.inr (Or.inr (Or.inl ⟨x, hb, Or.inl rfl⟩))
    · have hb := tokenRequest_run_ok rooms b rn hrun
      cases hcfg : validate_livekit_config cfg with
      | error e1 =>
        cases e1 with
        | environmentError m =>
          simp [get_livekit_token, hrun, generate_livekit_token, hcfg, bodyVals] at hv
          simp [hv]
        | signingError =>
          exact absurd hcfg (by
            unfold validate_livekit_config
            by_cases hm : (livekit_missing cfg).isEmpty = true <;> simp [hm])
      | ok u1 =>
        cases hsig : sign (build_sign_request cfg rn user) with
        | error es =>
          simp [get_livekit_token, hrun, generate_livekit_token, hcfg, hsig, bodyVals] at hv
          simp [hv]
        | ok jwt =>
          simp [get_livekit_token, hrun, generate_livekit_token, hcfg, hsig, bodyVals] at hv
          rcases hv with h | h | h | h
          · simp [h]
          · simp [h]
          · exact Or.inr (Or.inr (Or.inl ⟨rn, hb, Or.inr h⟩))
          · subst h
            cases user.is_teacher <;> simp

/-- Witness for the amended C9: the `me` endpoint for a concrete user,
with each characterized value realized. -/
theorem response_values_characterized_witness :
    Val.s "tea" ∈ bodyVals (me_view teacher1) ∧
    (Val.s "tea" = Val.n teacher1.id ∨ Val.s "tea" = Val.s teacher1.username ∨
     Val.s "tea" = Val.s teacher1.email ∨ Val.s "tea" = Val.s teacher1.role ∨
     (∃ x, Val.s "tea" = Val.b x)) :=
  ⟨by decide,
   response_values_characterized.2.2.1 teacher1 (Val.s "tea") (by decide)⟩

end ShikshaBackend
